import Mathlib

/-!
Verification of the rhythm-practice analyzer's audio core.

This file gives a shallow embedding, over exact rational arithmetic, of the
streaming audio-analysis components of the repository:

* `RealtimeOnsetDetector.process_chunk` (backend/audio/onset_detector.py),
* `MetronomeDetector` with `add_onset`, `_try_lock`, `_refit`, `track_onset`,
  `click_count` (backend/audio/metronome_detector.py),
* `GridConfig.compute_deviation` (backend/audio/grid_aligner.py),
* `classify_onset` and `_cosine_similarity` (backend/audio/calibration.py),
* the spectral-override click undo performed inline by
  `AudioPipeline.process_audio` (backend/audio/pipeline.py),

and proves or refutes the specification's claims about them.

Conventions of the embedding:

* Python floats are modelled as exact rationals `ℚ`.  In the onset detector,
  where the claims concern IEEE non-finite values, values are `Option ℚ`
  with `none` standing for NaN (see `FVal` below).
* Python's `round` is round-half-to-even (`pyRound`); Python's `//` and `%`
  on integers are floor division and floor modulus (`Int.fdiv`, `Int.fmod`).
* `np.sqrt` is embedded by `ratSqrt`, a rational square root that is exact on
  rationals that are squares of rationals; every concrete evaluation in the
  theorems below applies it to `0` or `1` only, where it is exact.
* Python lists are Lean lists; `list.append(x)` is `l ++ [x]`, `list.pop()`
  is `List.dropLast`, `list[-1]` (after a non-emptiness test) is
  `List.getLast?`.
-/

namespace MLRhythm

set_option maxRecDepth 8000

/-- Python's built-in `round` on an exact rational value: round half to even
(banker's rounding), returning an integer. -/
def pyRound (q : ℚ) : ℤ :=
  let f := ⌊q⌋
  if q - f < 1/2 then f
  else if (1:ℚ)/2 < q - f then f + 1
  else if f % 2 = 0 then f else f + 1

/-- Python's `round(x, ndigits)` on an exact rational value. -/
def pyRoundTo (q : ℚ) (ndigits : ℕ) : ℚ :=
  (pyRound (q * 10 ^ ndigits) : ℚ) / 10 ^ ndigits

/-- Largest `k` with `k * k ≤ n`, by bounded downward search (second argument
is the search bound / fuel). -/
def sqrtDown : ℕ → ℕ → ℕ
  | _, 0 => 0
  | n, m + 1 => if (m + 1) * (m + 1) ≤ n then m + 1 else sqrtDown n m

/-- Integer square root used by `ratSqrt`. -/
def intSqrt (n : ℕ) : ℕ := sqrtDown n n

/-- Embedding of `np.sqrt` on nonnegative rationals: exact whenever the
argument is the square of a rational (in particular on `0` and `1`, the only
values at which the theorems below ever evaluate it). -/
def ratSqrt (q : ℚ) : ℚ := (intSqrt q.num.toNat : ℚ) / (intSqrt q.den : ℚ)

/-!  ## Grid aligner — backend/audio/grid_aligner.py  -/

/-- `GridConfig.__init__`: beat grid based on BPM, resolution and a reference
time anchor. -/
structure GridConfig where
  bpm : ℚ
  grid_resolution : String
  reference_time : ℚ

/-- `GridConfig.beat_duration`. -/
def GridConfig.beat_duration (c : GridConfig) : ℚ := 60 / c.bpm

/-- `GridConfig.grid_interval`. -/
def GridConfig.grid_interval (c : GridConfig) : ℚ :=
  if c.grid_resolution = "16th" then c.beat_duration / 4 else c.beat_duration / 2

/-- The tuple returned by `GridConfig.compute_deviation`. -/
structure DeviationResult where
  deviation_ms : ℚ
  nearest_grid_time : ℚ
  bar : ℤ
  beat_position : ℚ

/-- `GridConfig.compute_deviation`: snap an onset to the nearest grid position
and compute the deviation.  Python's `//` and `%` on ints are floor division
and floor modulus, embedded as `Int.fdiv` / `Int.fmod`. -/
def GridConfig.compute_deviation (c : GridConfig) (onset_time : ℚ) : DeviationResult :=
  let relative := onset_time - c.reference_time
  let grid_index := pyRound (relative / c.grid_interval)
  let nearest_grid_time := c.reference_time + (grid_index : ℚ) * c.grid_interval
  let deviation_ms := (onset_time - nearest_grid_time) * 1000
  let subdivisions_per_beat : ℤ := if c.grid_resolution = "16th" then 4 else 2
  let subdivisions_per_bar : ℤ := 4 * subdivisions_per_beat
  let bar : ℤ := Int.fdiv grid_index subdivisions_per_bar + 1
  let position_in_bar : ℤ := Int.fmod grid_index subdivisions_per_bar
  let beat_position : ℚ := 1 + (position_in_bar : ℚ) / (subdivisions_per_beat : ℚ)
  ⟨pyRoundTo deviation_ms 1, nearest_grid_time, bar, pyRoundTo beat_position 2⟩

/-!  ## Metronome detector — backend/audio/metronome_detector.py

Class constants: `MIN_PERIODIC_ONSETS = 4`, `TOLERANCE_S = 0.025 = 1/40`,
`MIN_PERIOD_S = 0.25 = 1/4`, `MAX_PERIOD_S = 1.5 = 3/2`, `WINDOW_S = 6.0`,
`REFIT_INTERVAL = 4`.  They are never reassigned, so they appear below as
literals. -/

/-- The mutable state set up by `MetronomeDetector.__init__`.  Fields keep
the source's names with private underscores dropped: `click_indices` is the
source's `_click_indices`, `clicks_since_refit` is `_clicks_since_refit`,
and `best_periodic_count` is `_best_periodic_count`; likewise the methods
`refit`, `tryLock` and `computeClickIndices` below embed `_refit`,
`_try_lock` and `_compute_click_indices`. -/
structure MetronomeDetector where
  onset_times : List ℚ
  locked : Bool
  bpm : Option ℚ
  period : Option ℚ
  reference_time : Option ℚ
  click_times : List ℚ
  click_indices : List ℤ
  clicks_since_refit : ℤ
  best_periodic_count : ℕ

/-- `MetronomeDetector()` — the freshly constructed detector. -/
def MetronomeDetector.init : MetronomeDetector :=
  ⟨[], false, none, none, none, [], [], 0, 0⟩

/-- `np.linalg.lstsq(A, times, rcond=None)` with `A = [indices, ones]`:
ordinary least squares for `time = reference + index * period`, returning
`(period, reference)`.  In the full-rank case this is the unique solution of
the normal equations; in the rank-deficient case (all indices equal, where
`n·Σx² − (Σx)² = 0`) `lstsq` returns the minimum-norm least-squares solution. -/
def lstsqFit (indices : List ℤ) (times : List ℚ) : ℚ × ℚ :=
  let n : ℚ := (indices.length : ℚ)
  let xs : List ℚ := indices.map (fun i => (i : ℚ))
  let sx := xs.sum
  let sy := times.sum
  let sxx := (xs.map (fun x => x * x)).sum
  let sxy := (List.zipWith (fun x y => x * y) xs times).sum
  let det := n * sxx - sx * sx
  if det = 0 then
    let c := sx / n
    let ybar := sy / n
    (c * ybar / (c * c + 1), ybar / (c * c + 1))
  else
    ((n * sxy - sx * sy) / det, (sxx * sy - sx * sxy) / det)

/-- `MetronomeDetector._refit`: recompute period and reference from all
accumulated click times via linear regression; accept only a period in
`[MIN_PERIOD_S, MAX_PERIOD_S]`.  The source's locals `new_period` and
`new_reference` are the two components of the `lstsqFit` result, written
inline here. -/
def MetronomeDetector.refit (s : MetronomeDetector) : MetronomeDetector :=
  if s.click_times.length < 2 then s
  else if 1/4 ≤ (lstsqFit s.click_indices s.click_times).1 ∧
      (lstsqFit s.click_indices s.click_times).1 ≤ 3/2 then
    { s with period := some (lstsqFit s.click_indices s.click_times).1,
             reference_time := some (lstsqFit s.click_indices s.click_times).2,
             bpm := some (60 / (lstsqFit s.click_indices s.click_times).1) }
  else s

/-- The accept path at the end of `MetronomeDetector.track_onset`: record the
click, and refit when `_clicks_since_refit` reaches `REFIT_INTERVAL = 4`
(resetting it to 0 first, as the source does). -/
def MetronomeDetector.recordClick (s : MetronomeDetector) (t : ℚ) (nearest : ℤ) :
    MetronomeDetector × Bool :=
  if 4 ≤ s.clicks_since_refit + 1 then
    (MetronomeDetector.refit
      { s with click_times := s.click_times ++ [t],
               click_indices := s.click_indices ++ [nearest],
               clicks_since_refit := 0 }, true)
  else
    ({ s with click_times := s.click_times ++ [t],
              click_indices := s.click_indices ++ [nearest],
              clicks_since_refit := s.clicks_since_refit + 1 }, true)

/-- `MetronomeDetector.track_onset`: post-lock, check whether an onset is a
metronome click (within `min(period·250, 50)` ms of the grid and at least half
a period after the previous click) and record it, refitting every 4 clicks. -/
def MetronomeDetector.track_onset (s : MetronomeDetector) (onset_time : ℚ) :
    MetronomeDetector × Bool :=
  match s.locked, s.period, s.reference_time with
  | true, some p, some r =>
    -- source locals, written inline below:
    --   offset = (onset_time - r) / p,  nearest_int = round(offset),
    --   error_ms = |offset - nearest_int| * p * 1000,
    --   track_tolerance_ms = min(p * 250, 50)
    if min (p * 250) 50 <
        |((onset_time - r) / p) - (pyRound ((onset_time - r) / p) : ℚ)| * p * 1000 then
      (s, false)
    else
      match s.click_times.getLast? with
      | some last =>
        if onset_time - last < p * (1/2) then (s, false)
        else s.recordClick onset_time (pyRound ((onset_time - r) / p))
      | none => s.recordClick onset_time (pyRound ((onset_time - r) / p))
  | _, _, _ => (s, false)

/-- Onsets of `times` aligned (within `TOLERANCE_S = 25 ms`) to the grid
`base + k * period` — the inner `aligned` list of `_try_lock`. -/
def alignedOnsets (times : List ℚ) (base p : ℚ) : List ℚ :=
  times.filter (fun t =>
    let offset := (t - base) / p
    decide (|offset - (pyRound offset : ℚ)| * p ≤ 1/40))

/-- The `for divisor in (1, 2, 3, 4)` body of `_try_lock` for one pair
`(ti, tj)`: keep the candidate with the strictly larger aligned set. -/
def bestForPair (times : List ℚ) (ti tj : ℚ) (best : Option ℚ × List ℚ) :
    Option ℚ × List ℚ :=
  [(1:ℚ), 2, 3, 4].foldl
    (fun b d =>
      let period := (tj - ti) / d
      if period < 1/4 ∨ 3/2 < period then b
      else
        let aligned := alignedOnsets times ti period
        if b.2.length < aligned.length then (some period, aligned) else b)
    best

/-- The inner `for j in range(i+1, len(times))` loop of `_try_lock`. -/
def innerPairs (times : List ℚ) (ti : ℚ) (rest : List ℚ)
    (best : Option ℚ × List ℚ) : Option ℚ × List ℚ :=
  rest.foldl (fun b tj => bestForPair times ti tj b) best

/-- The outer `for i in range(len(times))` loop of `_try_lock`, with the early
`break` once a candidate reaches 6 aligned onsets (checked after each
complete inner loop, as in the source). -/
def searchLoop (times : List ℚ) : List ℚ → (Option ℚ × List ℚ) → Option ℚ × List ℚ
  | [], best => best
  | ti :: rest, best =>
    let best1 := innerPairs times ti rest best
    if 6 ≤ best1.2.length then best1 else searchLoop times rest best1

/-- `sorted(...)` (Python ascending stable sort), by insertion. -/
def insertAsc (x : ℚ) : List ℚ → List ℚ
  | [] => [x]
  | y :: ys => if x ≤ y then x :: y :: ys else y :: insertAsc x ys

def sortAsc (l : List ℚ) : List ℚ := l.foldr insertAsc []

/-- `MetronomeDetector._compute_click_indices`: assign beat indices to
`click_times` based on the approximate period. -/
def MetronomeDetector.computeClickIndices (s : MetronomeDetector)
    (approx_period : ℚ) : MetronomeDetector :=
  match s.click_times with
  | [] => s
  | base :: _ =>
    { s with click_indices :=
        s.click_times.map (fun t => pyRound ((t - base) / approx_period)) }

/-- `MetronomeDetector._try_lock`: periodicity search over the last 6 seconds
of onsets (`onset_times[-1]` is total, the caller guarantees non-emptiness,
embedded as `getLast?.getD 0`). -/
def MetronomeDetector.tryLock (s : MetronomeDetector) : MetronomeDetector × Bool :=
  let cutoff := (s.onset_times.getLast?.getD 0) - 6
  let times := s.onset_times.filter (fun t => decide (cutoff ≤ t))
  if times.length < 4 then (s, false)
  else
    let best := searchLoop times times (none, [])
    let s1 : MetronomeDetector := { s with best_periodic_count := best.2.length }
    match best.1 with
    | some best_period =>
      if 4 ≤ best.2.length then
        let s2 : MetronomeDetector := { s1 with click_times := sortAsc best.2 }
        let s3 := s2.computeClickIndices best_period
        let s4 := s3.refit
        ({ s4 with locked := true }, true)
      else (s1, false)
    | none => (s1, false)

/-- `MetronomeDetector.add_onset`: pre-lock, add any onset time; returns
whether the grid just locked. -/
def MetronomeDetector.add_onset (s : MetronomeDetector) (time_seconds : ℚ) :
    MetronomeDetector × Bool :=
  let s1 : MetronomeDetector := { s with onset_times := s.onset_times ++ [time_seconds] }
  if s1.locked then (s1, false)
  else if s1.onset_times.length < 4 then (s1, false)
  else s1.tryLock

/-- `MetronomeDetector.click_count` property. -/
def MetronomeDetector.click_count (s : MetronomeDetector) : ℕ :=
  if s.locked then s.click_times.length else s.best_periodic_count

/-- The spectral-override undo performed inline by
`AudioPipeline.process_audio` when timing says click but the spectral profile
says guitar: `click_times.pop()`, `_click_indices.pop()`,
`_clicks_since_refit = max(0, _clicks_since_refit - 1)`. -/
def MetronomeDetector.undoClick (s : MetronomeDetector) : MetronomeDetector :=
  { s with click_times := s.click_times.dropLast,
           click_indices := s.click_indices.dropLast,
           clicks_since_refit := max 0 (s.clicks_since_refit - 1) }

/-- Ascending (weak) sortedness of a list of rationals, as an executable
check. -/
def isSortedAsc : List ℚ → Bool
  | [] => true
  | [_] => true
  | a :: b :: rest => decide (a ≤ b) && isSortedAsc (b :: rest)

/-- The post-lock state invariant of C4: a period is present and lies in
`[1/4, 3/2]` seconds, `click_times` is sorted ascending, and `click_times`
and `click_indices` have equal length. -/
def MetronomeDetector.invariantHolds (s : MetronomeDetector) : Bool :=
  (match s.period with
   | some p => decide ((1:ℚ)/4 ≤ p) && decide (p ≤ 3/2)
   | none => false) &&
  isSortedAsc s.click_times &&
  (s.click_times.length == s.click_indices.length)

/-!  ## Real-time onset detector — backend/audio/onset_detector.py

Sample values are `Option ℚ`: `some q` is the finite float `q`, `none` models
IEEE NaN, the non-finite value produced when NaN samples flow through
`frame**2`, `np.mean` and `np.sqrt`.  The arithmetic below follows IEEE
semantics for NaN: any arithmetic on NaN is NaN, and every ordered
comparison against NaN is false (hence Python's two-argument
`max(a, b)` — `b if b > a else a` — returns `a` when `b` is NaN). -/

/-- A sample or intermediate value: `some q` finite, `none` NaN. -/
abbrev FVal := Option ℚ

def fAdd : FVal → FVal → FVal
  | some a, some b => some (a + b)
  | _, _ => none

def fMul : FVal → FVal → FVal
  | some a, some b => some (a * b)
  | _, _ => none

def fDiv : FVal → FVal → FVal
  | some a, some b => some (a / b)
  | _, _ => none

/-- `np.sqrt` on a possibly-NaN value (arguments here are always
nonnegative). -/
def fSqrt : FVal → FVal
  | some a => some (ratSqrt a)
  | none => none

/-- `a < b` with IEEE comparison semantics: false if either side is NaN. -/
def fLt : FVal → FVal → Bool
  | some a, some b => decide (a < b)
  | _, _ => false

/-- `a > b` with IEEE comparison semantics: false if either side is NaN. -/
def fGt : FVal → FVal → Bool
  | some a, some b => decide (b < a)
  | _, _ => false

/-- Python's two-argument `max(a, b)`: `b` if `b > a` else `a`. -/
def fMax (a b : FVal) : FVal := if fGt b a then b else a

/-- `rms = float(np.sqrt(np.mean(frame**2)))`. -/
def rmsOf (frame : List FVal) : FVal :=
  fSqrt (fDiv (frame.foldl (fun acc x => fAdd acc (fMul x x)) (some 0))
    (some ((frame.length : ℚ))))

/-- The state set up by `RealtimeOnsetDetector.__init__`.  The constant
attributes `alpha_smooth = 0.3`, `alpha_mean_rise = 0.01`,
`alpha_mean_fall = 0.05`, `threshold_ratio = 1.5`, `min_threshold = 0.001`,
`hysteresis_ratio = 0.4` are never reassigned and appear as literals in
`stepFrame`; the diagnostic `_log_interval` counter printing is dropped.
`above_threshold`, `peak_rms` and `frame_count` are the source's
`_above_threshold`, `_peak_rms` and `_frame_count`. -/
structure RealtimeOnsetDetector where
  sample_rate : ℕ
  min_interval_seconds : ℚ
  last_onset_time : Option ℚ
  total_samples : ℕ
  smoothed_rms : FVal
  mean_rms : FVal
  above_threshold : Bool
  peak_rms : FVal
  frame_count : ℕ

/-- `RealtimeOnsetDetector(sample_rate=44100, min_interval_seconds=0.05)` —
the parameters the pipeline uses. -/
def RealtimeOnsetDetector.init : RealtimeOnsetDetector :=
  ⟨44100, 1/20, none, 0, some 0, some 0, false, some 0, 0⟩

/-- One iteration of the frame loop in `process_chunk` (`i` is the frame's
offset in the chunk).  The asymmetric-baseline update of `mean_rms`, written
after the gate in the source, depends only on `rms` and the old `mean_rms`,
so it is computed alongside the other updates here. -/
def stepFrame (st : RealtimeOnsetDetector) (i : ℕ) (frame : List FVal)
    (onsets : List ℚ) : RealtimeOnsetDetector × List ℚ :=
  let rms := rmsOf frame
  let smoothed := fAdd (fMul (some (3/10)) rms) (fMul (some (7/10)) st.smoothed_rms)
  let threshold := fMax (some (1/1000)) (fMul st.mean_rms (some (3/2)))
  let peak := if fGt rms st.peak_rms then rms else st.peak_rms
  let alpha : ℚ := if fGt rms st.mean_rms then 1/100 else 1/20
  let mean := fAdd (fMul (some alpha) rms) (fMul (some (1 - alpha)) st.mean_rms)
  if fGt smoothed threshold then
    if st.above_threshold = false then
      -- rising edge: energy just crossed the threshold — this is an onset
      let onset_time : ℚ := ((st.total_samples + i : ℕ) : ℚ) / (st.sample_rate : ℚ)
      match st.last_onset_time with
      | none =>
        ({ st with smoothed_rms := smoothed, mean_rms := mean,
                   above_threshold := true, last_onset_time := some onset_time,
                   peak_rms := peak, frame_count := st.frame_count + 1 },
         onsets ++ [onset_time])
      | some last =>
        if st.min_interval_seconds ≤ onset_time - last then
          ({ st with smoothed_rms := smoothed, mean_rms := mean,
                     above_threshold := true, last_onset_time := some onset_time,
                     peak_rms := peak, frame_count := st.frame_count + 1 },
           onsets ++ [onset_time])
        else
          ({ st with smoothed_rms := smoothed, mean_rms := mean,
                     above_threshold := true, peak_rms := peak,
                     frame_count := st.frame_count + 1 }, onsets)
    else
      ({ st with smoothed_rms := smoothed, mean_rms := mean,
                 peak_rms := peak, frame_count := st.frame_count + 1 }, onsets)
  else
    if fLt smoothed (fMul threshold (some (2/5))) then
      -- hysteresis: re-arm only when energy drops well below the threshold
      ({ st with smoothed_rms := smoothed, mean_rms := mean,
                 above_threshold := false, peak_rms := peak,
                 frame_count := st.frame_count + 1 }, onsets)
    else
      ({ st with smoothed_rms := smoothed, mean_rms := mean,
                 peak_rms := peak, frame_count := st.frame_count + 1 }, onsets)

/-- The frame offsets visited by `range(0, len(audio_chunk) - frame_size + 1,
hop_size)` with `frame_size = 512`, `hop_size = 256`. -/
def frameStarts (len : ℕ) : List ℕ :=
  if len < 512 then [] else (List.range ((len - 512) / 256 + 1)).map (fun k => k * 256)

/-- `RealtimeOnsetDetector.process_chunk`: run the frame loop over the frames
lying wholly inside the chunk, then advance `total_samples` by the chunk
length. -/
def RealtimeOnsetDetector.process_chunk (st : RealtimeOnsetDetector)
    (audio_chunk : List FVal) : RealtimeOnsetDetector × List ℚ :=
  let res := (frameStarts audio_chunk.length).foldl
    (fun acc i => stepFrame acc.1 i ((audio_chunk.drop i).take 512) acc.2)
    (st, ([] : List ℚ))
  ({ res.1 with total_samples := res.1.total_samples + audio_chunk.length }, res.2)

/-- Feeding a list of chunks one at a time, concatenating the onsets. -/
def processChunks (st : RealtimeOnsetDetector) (chunks : List (List FVal)) :
    RealtimeOnsetDetector × List ℚ :=
  chunks.foldl (fun acc c =>
    ((acc.1.process_chunk c).1, acc.2 ++ (acc.1.process_chunk c).2)) (st, ([] : List ℚ))

/-- The audio chunks used in the concrete evaluations: 512 samples of 1.0,
512 zeros, 512 NaNs, and 256 samples of 1.0. -/
def onesChunk : List FVal := List.replicate 512 (some 1)

def zerosChunk : List FVal := List.replicate 512 (some 0)

def nanChunk : List FVal := List.replicate 512 none

def halfOnesChunk : List FVal := List.replicate 256 (some 1)

/-!  ## Onset classification — backend/audio/calibration.py

`WINDOW_SAMPLES = 2048`.  The MFCC and spectral-centroid computations are
calls into librosa, external to the repository; they enter the embedding as
function parameters `mfccOf` and `centroidOf` (closing over the sample
rate).  Every classification fact proved below holds for arbitrary
extractors, because the branches involved never inspect their output. -/

/-- A calibration profile as read by `classify_onset`: the `mfcc_mean` key is
always present; `energy_decay` is read with `.get("energy_decay", 0.5)`, so
it may be absent.  The keys `spectral_centroid` and `onset_count` are never
read by `classify_onset` and are omitted. -/
structure Profile where
  mfcc_mean : List ℚ
  energy_decay : Option ℚ

/-- The calibration dict: either profile may be absent (a falsy entry —
`None` or missing — is modelled as `none`). -/
structure Calibration where
  metronome : Option Profile
  guitar : Option Profile

/-- The dict returned by `_extract_window_features`. -/
structure WindowFeatures where
  mfcc : List ℚ
  spectral_centroid : ℚ
  energy_decay : ℚ

/-- `np.max(np.abs(window))` (windows here are non-empty). -/
def maxAbs (l : List ℚ) : ℚ := (l.map abs).foldl max 0

/-- The squared Euclidean norm `Σ xᵢ²` — `np.linalg.norm(v)` squared. -/
def normSq (v : List ℚ) : ℚ := (v.map (fun x => x * x)).sum

/-- `np.dot a b`. -/
def dotList (a b : List ℚ) : ℚ := (List.zipWith (fun x y => x * y) a b).sum

/-- `_cosine_similarity`: the source guard `norm_a < 1e-10 or norm_b < 1e-10`
is taken on squared norms (`‖a‖ < 1e-10 ↔ ‖a‖² < 1e-20`, norms being
nonnegative) to stay inside ℚ; the ratio uses `ratSqrt`. -/
def cosineSimilarity (a b : List ℚ) : ℚ :=
  if normSq a < 1/10^20 ∨ normSq b < 1/10^20 then 0
  else dotList a b / (ratSqrt (normSq a) * ratSqrt (normSq b))

/-- `_extract_window_features`: `None` on a silent window
(`max |sample| < 1e-6`); otherwise MFCCs, centroid, and the energy-decay
ratio (second-half / first-half energy, `1.0` when the first half's energy is
at most 1e-10).  The source locals `mid`, `first_energy`, `second_energy`
are written inline. -/
def extractWindowFeatures (mfccOf : List ℚ → List ℚ) (centroidOf : List ℚ → ℚ)
    (window : List ℚ) : Option WindowFeatures :=
  if maxAbs window < 1/10^6 then none
  else
    some ⟨mfccOf window, centroidOf window,
      if 1/10^10 < normSq (window.take (window.length / 2)) then
        normSq (window.drop (window.length / 2)) /
          normSq (window.take (window.length / 2))
      else 1⟩

/-- The final scoring block of `classify_onset` (source locals `sim_met`,
`sim_gtr`, `met_decay`, `gtr_decay`, `decay_dist_met`, `decay_dist_gtr`,
`score_met = sim_met - 0.3*decay_dist_met`,
`score_gtr = sim_gtr - 0.3*decay_dist_gtr` written inline;
`score_met > score_gtr` is `score_gtr < score_met`). -/
def classifyScores (mfcc : List ℚ) (onset_decay : ℚ)
    (met_profile gtr_profile : Profile) : String :=
  if cosineSimilarity mfcc gtr_profile.mfcc_mean -
        3/10 * |onset_decay - gtr_profile.energy_decay.getD (1/2)| <
      cosineSimilarity mfcc met_profile.mfcc_mean -
        3/10 * |onset_decay - met_profile.energy_decay.getD (1/2)| then "click"
  else "guitar"

/-- `classify_onset`: bounds check on the 2048-sample window, feature
extraction, profile presence check, then spectral scoring. -/
def classify_onset (mfccOf : List ℚ → List ℚ) (centroidOf : List ℚ → ℚ)
    (audio_buffer : List ℚ) (onset_sample : ℤ) (sample_rate : ℕ)
    (calibration : Calibration) : String :=
  if (audio_buffer.length : ℤ) < onset_sample + 2048 ∨ onset_sample < 0 then
    "guitar"
  else
    match extractWindowFeatures mfccOf centroidOf
        ((audio_buffer.drop onset_sample.toNat).take 2048) with
    | none => "guitar"
    | some features =>
      match calibration.metronome, calibration.guitar with
      | some met_profile, some gtr_profile =>
        classifyScores features.mfcc features.energy_decay met_profile gtr_profile
      | _, _ => "guitar"

/-- A concrete stand-in for the librosa MFCC extraction, used only to
instantiate the theorems at concrete inputs; the branches evaluated never
inspect its output (both profile norms vanish there). -/
def mfccStub : List ℚ → List ℚ := fun _ => List.replicate 13 0

/-- A concrete stand-in for the librosa spectral-centroid computation;
`classify_onset` never reads the centroid. -/
def centroidStub : List ℚ → ℚ := fun _ => 0

/-- The buffer of the C7 counterexample: 2048 samples of 1.0 (one full,
non-silent feature window). -/
def onesBuffer : List ℚ := List.replicate 2048 1

/-- The calibration of the C7 counterexample: both profiles have an all-zero
MFCC mean (norm 0 < 1e-10); the metronome profile's energy decay is 1 (equal
to the window's) and the guitar profile's is 5. -/
def zeroNormCalibration : Calibration :=
  Calibration.mk (some (Profile.mk (List.replicate 13 0) (some 1)))
    (some (Profile.mk (List.replicate 13 0) (some 5)))

/-! ## Theorems: the specification claims and their supporting lemmas -/

theorem pyRound_intCast (k : ℤ) : pyRound (k : ℚ) = k := by
  norm_num [pyRound]

theorem pyRoundTo_zero (n : ℕ) : pyRoundTo 0 n = 0 := by
  simp [pyRoundTo, pyRound]

theorem grid_interval_pos (c : GridConfig) (h : 0 < c.bpm) : 0 < c.grid_interval := by
  unfold GridConfig.grid_interval GridConfig.beat_duration
  split <;> positivity

theorem compute_deviation_on_grid (c : GridConfig) (k : ℤ) (hI : c.grid_interval ≠ 0) :
    (c.compute_deviation (c.reference_time + (k : ℚ) * c.grid_interval)).deviation_ms = 0 := by
  have h1 : (c.reference_time + (k : ℚ) * c.grid_interval - c.reference_time) /
      c.grid_interval = (k : ℚ) := by
    field_simp
  simp only [GridConfig.compute_deviation, h1, pyRound_intCast]
  have h2 : (c.reference_time + (k : ℚ) * c.grid_interval -
      (c.reference_time + (k : ℚ) * c.grid_interval)) * 1000 = 0 := by ring
  rw [h2, pyRoundTo_zero]

/-- C9: for every grid configuration with positive BPM and every onset time,
re-aligning the nearest grid time returned by `compute_deviation` yields a
deviation of exactly zero: the grid aligner is idempotent on its own output. -/
theorem compute_deviation_idempotent (c : GridConfig) (t : ℚ) (hbpm : 0 < c.bpm) :
    (c.compute_deviation (c.compute_deviation t).nearest_grid_time).deviation_ms = 0 := by
  have hI : c.grid_interval ≠ 0 := (grid_interval_pos c hbpm).ne'
  have hg : (c.compute_deviation t).nearest_grid_time =
      c.reference_time + ((pyRound ((t - c.reference_time) / c.grid_interval)) : ℚ) *
        c.grid_interval := rfl
  rw [hg]
  exact compute_deviation_on_grid c _ hI

/-- Witness for C9 at a concrete grid (120 BPM, eighth notes, reference 0)
and onset time 3/10. -/
theorem compute_deviation_idempotent_witness :
    (0 : ℚ) < 120 ∧
    ((GridConfig.mk 120 "8th" 0).compute_deviation
      ((GridConfig.mk 120 "8th" 0).compute_deviation (3/10)).nearest_grid_time).deviation_ms
      = 0 :=
  ⟨by norm_num, compute_deviation_idempotent (GridConfig.mk 120 "8th" 0) (3/10) (by norm_num)⟩

/-- C6: for an onset whose grid index `k` is negative, `compute_deviation`
computes the bar with mathematical flooring — `bar = ⌊k / s_per_bar⌋ + 1` —
and that bar is `≤ 0` (not `1`, as truncation toward zero would give for
`-s_per_bar < k < 0`). -/
theorem int_ediv_eq_floor (k s : ℤ) (hs : 0 < s) : k / s = ⌊(k : ℚ) / (s : ℚ)⌋ := by
  obtain ⟨n, rfl⟩ : ∃ n : ℕ, s = (n : ℤ) := ⟨s.toNat, (Int.toNat_of_nonneg hs.le).symm⟩
  rw [show (((n : ℤ)) : ℚ) = ((n : ℕ) : ℚ) from by push_cast; ring]
  exact (Rat.floor_intCast_div_natCast k n).symm

theorem compute_deviation_negative_bar (c : GridConfig) (t : ℚ)
    (hk : pyRound ((t - c.reference_time) / c.grid_interval) < 0) :
    (c.compute_deviation t).bar =
      ⌊((pyRound ((t - c.reference_time) / c.grid_interval) : ℚ)) /
        ((4 * (if c.grid_resolution = "16th" then (4:ℤ) else 2)) : ℚ)⌋ + 1 ∧
    (c.compute_deviation t).bar ≤ 0 := by
  set k := pyRound ((t - c.reference_time) / c.grid_interval) with hkdef
  have hbar : (c.compute_deviation t).bar =
      Int.fdiv k (4 * (if c.grid_resolution = "16th" then (4:ℤ) else 2)) + 1 := rfl
  by_cases hres : c.grid_resolution = "16th"
  · have hspos : (0:ℤ) < 4 * (4:ℤ) := by norm_num
    constructor
    · rw [hbar, hres]
      simp only [eq_self_iff_true, if_true]
      rw [Int.fdiv_eq_ediv _ hspos.le, int_ediv_eq_floor _ _ hspos]
      norm_num
    · rw [hbar, hres]
      simp only [eq_self_iff_true, if_true]
      have := Int.fdiv_neg' hk hspos
      omega
  · have hspos : (0:ℤ) < 4 * (2:ℤ) := by norm_num
    constructor
    · rw [hbar]
      simp only [if_neg hres]
      rw [Int.fdiv_eq_ediv _ hspos.le, int_ediv_eq_floor _ _ hspos]
      norm_num
    · rw [hbar]
      simp only [if_neg hres]
      have := Int.fdiv_neg' hk hspos
      omega

/-- Witness for C6: grid at 120 BPM, eighth notes, reference 10 s; onset at
t = 0 has grid index −40 and lands in bar −4. -/
theorem compute_deviation_negative_bar_witness :
    pyRound (((0:ℚ) - (GridConfig.mk 120 "8th" 10).reference_time) /
      (GridConfig.mk 120 "8th" 10).grid_interval) < 0 ∧
    (((GridConfig.mk 120 "8th" 10).compute_deviation 0).bar =
      ⌊((pyRound (((0:ℚ) - (GridConfig.mk 120 "8th" 10).reference_time) /
          (GridConfig.mk 120 "8th" 10).grid_interval) : ℚ)) /
        ((4 * (if (GridConfig.mk 120 "8th" 10).grid_resolution = "16th" then (4:ℤ) else 2)) : ℚ)⌋
        + 1 ∧
     ((GridConfig.mk 120 "8th" 10).compute_deviation 0).bar ≤ 0) :=
  ⟨by simp only [pyRound, GridConfig.grid_interval, GridConfig.beat_duration,
      String.reduceEq, if_false]; norm_num,
   compute_deviation_negative_bar (GridConfig.mk 120 "8th" 10) 0
     (by simp only [pyRound, GridConfig.grid_interval, GridConfig.beat_duration,
        String.reduceEq, if_false]; norm_num)⟩

/-- C2 (amended): feeding exactly three perfectly periodic onsets to
`add_onset` from the initial state leaves the detector unlocked, and
`click_count` is 0 — not 3 — because with fewer than `MIN_PERIODIC_ONSETS = 4`
onsets the periodicity search never runs, so `_best_periodic_count` keeps its
initial value 0. -/
theorem three_periodic_onsets_no_lock (t p : ℚ) (hp : 0 < p) :
    ((((MetronomeDetector.init.add_onset t).1.add_onset (t + p)).1.add_onset
        (t + 2 * p)).1.locked = false) ∧
    ((((MetronomeDetector.init.add_onset t).1.add_onset (t + p)).1.add_onset
        (t + 2 * p)).1.click_count = 0) := by
  simp [MetronomeDetector.add_onset, MetronomeDetector.init, MetronomeDetector.click_count]

/-- Witness for C2's amended statement, with onsets 0, 1/2, 1 (period 1/2). -/
theorem three_periodic_onsets_no_lock_witness :
    (0 : ℚ) < 1/2 ∧
    (((((MetronomeDetector.init.add_onset 0).1.add_onset (0 + 1/2)).1.add_onset
        (0 + 2 * (1/2))).1.locked = false) ∧
     ((((MetronomeDetector.init.add_onset 0).1.add_onset (0 + 1/2)).1.add_onset
        (0 + 2 * (1/2))).1.click_count = 0)) :=
  ⟨by norm_num, three_periodic_onsets_no_lock 0 (1/2) (by norm_num)⟩

/-- Counterexample to C2 as stated: after the three perfectly periodic onsets
0, 1/2, 1 the `click_count` property is 0, not 3 (the detector is indeed not
locked). -/
theorem three_periodic_onsets_counterexample :
    ((((MetronomeDetector.init.add_onset 0).1.add_onset (1/2)).1.add_onset 1).1.locked
      = false) ∧
    ((((MetronomeDetector.init.add_onset 0).1.add_onset (1/2)).1.add_onset 1).1.click_count
      = 0) ∧
    ¬((((MetronomeDetector.init.add_onset 0).1.add_onset (1/2)).1.add_onset 1).1.click_count
      = 3) := by
  simp [MetronomeDetector.add_onset, MetronomeDetector.init, MetronomeDetector.click_count]

/-- C8: `_refit` changes the estimate only when the least-squares period lies
in `[1/4, 3/2]` seconds: with fewer than 2 clicks, or with a fitted period
outside that range, the whole state (in particular `period`,
`reference_time`, `bpm`) is left unchanged; when the fit is accepted,
`period` and `reference_time` are set from the fit and `bpm = 60 / period`. -/
theorem refit_eq_of_short (s : MetronomeDetector) (h : s.click_times.length < 2) :
    s.refit = s := by
  simp [MetronomeDetector.refit, h]

theorem refit_eq_of_out_of_range (s : MetronomeDetector)
    (h : ¬(1/4 ≤ (lstsqFit s.click_indices s.click_times).1 ∧
        (lstsqFit s.click_indices s.click_times).1 ≤ 3/2)) :
    s.refit = s := by
  simp only [MetronomeDetector.refit]
  split_ifs <;> rfl

theorem refit_eq_of_accept (s : MetronomeDetector)
    (hlen : 2 ≤ s.click_times.length)
    (h1 : 1/4 ≤ (lstsqFit s.click_indices s.click_times).1)
    (h2 : (lstsqFit s.click_indices s.click_times).1 ≤ 3/2) :
    s.refit = { s with
      period := some (lstsqFit s.click_indices s.click_times).1,
      reference_time := some (lstsqFit s.click_indices s.click_times).2,
      bpm := some (60 / (lstsqFit s.click_indices s.click_times).1) } := by
  simp only [MetronomeDetector.refit]
  split_ifs with g1 g2
  · exact absurd g1 (by omega)
  · rfl
  · exact absurd ⟨h1, h2⟩ g2

theorem refit_changes_only_within_range (s : MetronomeDetector) :
    (s.click_times.length < 2 → s.refit = s) ∧
    (¬(1/4 ≤ (lstsqFit s.click_indices s.click_times).1 ∧
        (lstsqFit s.click_indices s.click_times).1 ≤ 3/2) → s.refit = s) ∧
    (2 ≤ s.click_times.length →
      1/4 ≤ (lstsqFit s.click_indices s.click_times).1 →
      (lstsqFit s.click_indices s.click_times).1 ≤ 3/2 →
      s.refit = { s with
        period := some (lstsqFit s.click_indices s.click_times).1,
        reference_time := some (lstsqFit s.click_indices s.click_times).2,
        bpm := some (60 / (lstsqFit s.click_indices s.click_times).1) }) := by
  exact ⟨refit_eq_of_short s, refit_eq_of_out_of_range s,
    fun hlen h1 h2 => refit_eq_of_accept s hlen h1 h2⟩

/-- Witness for C8 on a locked detector with clicks `[0, 1/2]`, indices
`[0, 1]`: the least-squares fit gives period 1/2 (in range), so `_refit` sets
`period = 1/2`, `reference_time = 0`, `bpm = 120`. -/
theorem refit_changes_only_within_range_witness :
    2 ≤ ([(0:ℚ), 1/2] : List ℚ).length ∧
    1/4 ≤ (lstsqFit [0, 1] [0, 1/2]).1 ∧
    (lstsqFit [0, 1] [0, 1/2]).1 ≤ 3/2 ∧
    (MetronomeDetector.mk [] true (some 120) (some (1/2)) (some 0)
        [0, 1/2] [0, 1] 0 0).refit =
      { (MetronomeDetector.mk [] true (some 120) (some (1/2)) (some 0)
          [0, 1/2] [0, 1] 0 0) with
        period := some (lstsqFit [0, 1] [0, 1/2]).1,
        reference_time := some (lstsqFit [0, 1] [0, 1/2]).2,
        bpm := some (60 / (lstsqFit [0, 1] [0, 1/2]).1) } :=
  ⟨by norm_num, by norm_num [lstsqFit], by norm_num [lstsqFit],
   (refit_changes_only_within_range _).2.2 (by norm_num)
     (by norm_num [lstsqFit]) (by norm_num [lstsqFit])⟩

theorem isSortedAsc_le_getLast :
    ∀ l : List ℚ, isSortedAsc l = true → ∀ m, l.getLast? = some m →
      ∀ x ∈ l, x ≤ m := by
  intro l
  induction l with
  | nil => intro _ m hm; simp at hm
  | cons a l ih =>
    cases l with
    | nil =>
      intro _ m hm x hx
      simp at hm hx
      simp [hm ▸ hx]
    | cons b rest =>
      intro hs m hm x hx
      simp only [isSortedAsc, Bool.and_eq_true, decide_eq_true_eq] at hs
      rw [List.getLast?_cons_cons] at hm
      rcases List.mem_cons.mp hx with rfl | hx'
      · exact le_trans hs.1 (ih hs.2 m hm b (List.mem_cons_self b rest))
      · exact ih hs.2 m hm x hx'

theorem isSortedAsc_concat :
    ∀ l : List ℚ, ∀ t : ℚ, isSortedAsc l = true → (∀ x ∈ l, x ≤ t) →
      isSortedAsc (l ++ [t]) = true := by
  intro l
  induction l with
  | nil => intro t _ _; rfl
  | cons a l ih =>
    cases l with
    | nil =>
      intro t _ hle
      simp only [List.cons_append, List.nil_append, isSortedAsc, Bool.and_eq_true,
        decide_eq_true_eq]
      exact ⟨hle a (List.mem_cons_self a []), trivial⟩
    | cons b rest =>
      intro t hs hle
      simp only [isSortedAsc, Bool.and_eq_true, decide_eq_true_eq] at hs
      simp only [List.cons_append, isSortedAsc, Bool.and_eq_true, decide_eq_true_eq]
      refine ⟨hs.1, ?_⟩
      have := ih t hs.2 (fun x hx => hle x (List.mem_cons_of_mem a hx))
      simpa using this

theorem invariant_refit (s : MetronomeDetector) (h : s.invariantHolds = true) :
    s.refit.invariantHolds = true := by
  simp only [MetronomeDetector.refit]
  split_ifs with g1 g2
  · exact h
  · simp only [MetronomeDetector.invariantHolds, Bool.and_eq_true] at h ⊢
    simp only [Bool.and_eq_true, decide_eq_true_eq]
    exact ⟨⟨⟨g2.1, g2.2⟩, h.1.2⟩, h.2⟩
  · exact h

theorem invariant_append (s : MetronomeDetector) (t : ℚ) (k : ℤ) (c : ℤ)
    (h : s.invariantHolds = true) (hle : ∀ x ∈ s.click_times, x ≤ t) :
    ({ s with click_times := s.click_times ++ [t],
              click_indices := s.click_indices ++ [k],
              clicks_since_refit := c } :
        MetronomeDetector).invariantHolds = true := by
  simp only [MetronomeDetector.invariantHolds, Bool.and_eq_true] at h ⊢
  refine ⟨⟨h.1.1, isSortedAsc_concat _ t h.1.2 hle⟩, ?_⟩
  have hlen := h.2
  simp only [beq_iff_eq] at hlen ⊢
  simp [hlen]

theorem invariant_recordClick (s : MetronomeDetector) (t : ℚ) (k : ℤ)
    (h : s.invariantHolds = true) (hle : ∀ x ∈ s.click_times, x ≤ t) :
    (s.recordClick t k).1.invariantHolds = true := by
  simp only [MetronomeDetector.recordClick]
  split_ifs
  · exact invariant_refit _ (invariant_append s t k 0 h hle)
  · exact invariant_append s t k (s.clicks_since_refit + 1) h hle

/-- C4: on a locked detector satisfying the post-lock invariant (period in
`[1/4, 3/2]`, `click_times` sorted ascending, `|click_times| =
|click_indices|`), every `add_onset`, `_refit` and `track_onset` preserves
the invariant; moreover, whenever `track_onset` accepts an onset `t`, the
inserted click is within the tracking tolerance of the grid of the state it
was inserted into: `|t − (reference + round((t−reference)/period) · period)|
· 1000 ≤ min(period·250, 50)`. -/
theorem locked_invariant_preserved (s : MetronomeDetector) (t : ℚ)
    (hl : s.locked = true) (hinv : s.invariantHolds = true) :
    (s.add_onset t).1.invariantHolds = true ∧
    s.refit.invariantHolds = true ∧
    (s.track_onset t).1.invariantHolds = true ∧
    ((s.track_onset t).2 = true →
      ∃ p r, s.period = some p ∧ s.reference_time = some r ∧
        |t - (r + (pyRound ((t - r) / p) : ℚ) * p)| * 1000 ≤ min (p * 250) 50) := by
  obtain ⟨p, hp, hp14, hp32⟩ :
      ∃ p, s.period = some p ∧ 1/4 ≤ p ∧ p ≤ 3/2 := by
    have h1 := hinv
    simp only [MetronomeDetector.invariantHolds, Bool.and_eq_true] at h1
    rcases hper : s.period with _ | p
    · rw [hper] at h1; simp at h1
    · rw [hper] at h1
      simp only [Bool.and_eq_true, decide_eq_true_eq] at h1
      exact ⟨p, rfl, h1.1.1.1, h1.1.1.2⟩
  have hppos : 0 < p := lt_of_lt_of_le (by norm_num) hp14
  refine ⟨?_, invariant_refit s hinv, ?_⟩
  · -- add_onset on a locked detector only appends to onset_times
    simp only [MetronomeDetector.add_onset, hl, if_true]
    simpa only [MetronomeDetector.invariantHolds] using hinv
  · -- track_onset
    rcases hr : s.reference_time with _ | r
    · constructor
      · simp only [MetronomeDetector.track_onset, hl, hp, hr]
        exact hinv
      · simp only [MetronomeDetector.track_onset, hl, hp, hr]
        intro hfalse
        exact absurd hfalse (by simp)
    · simp only [MetronomeDetector.track_onset, hl, hp, hr]
      by_cases herr : min (p * 250) 50 <
          |((t - r) / p) - (pyRound ((t - r) / p) : ℚ)| * p * 1000
      · rw [if_pos herr]
        exact ⟨hinv, by intro h; exact absurd h (by simp)⟩
      · rw [if_neg herr]
        have htol : |t - (r + (pyRound ((t - r) / p) : ℚ) * p)| * 1000 ≤
            min (p * 250) 50 := by
          push_neg at herr
          calc |t - (r + (pyRound ((t - r) / p) : ℚ) * p)| * 1000
              = |((t - r) / p - (pyRound ((t - r) / p) : ℚ)) * p| * 1000 := by
                rw [sub_mul, div_mul_cancel₀ _ hppos.ne']; ring_nf
            _ = |(t - r) / p - (pyRound ((t - r) / p) : ℚ)| * p * 1000 := by
                rw [abs_mul, abs_of_pos hppos]
            _ ≤ min (p * 250) 50 := herr
        rcases hlast : s.click_times.getLast? with _ | last
        · constructor
          · exact invariant_recordClick s t _ hinv
              (by intro x hx
                  rw [List.getLast?_eq_none_iff] at hlast
                  rw [hlast] at hx
                  exact absurd hx (List.not_mem_nil x))
          · intro _
            exact ⟨p, r, rfl, rfl, htol⟩
        · by_cases hgap : t - last < p * (1/2)
          · simp only [hgap, if_true]
            exact ⟨hinv, by intro h; exact absurd h (by simp)⟩
          · simp only [hgap, if_false]
            have hsorted : isSortedAsc s.click_times = true := by
              have h1 := hinv
              simp only [MetronomeDetector.invariantHolds, Bool.and_eq_true] at h1
              exact h1.1.2
            have hle : ∀ x ∈ s.click_times, x ≤ t := by
              intro x hx
              have hx_last : x ≤ last :=
                isSortedAsc_le_getLast s.click_times hsorted last hlast x hx
              have : last ≤ t := by
                push_neg at hgap
                nlinarith
              linarith
            exact ⟨invariant_recordClick s t _ hinv hle,
              fun _ => ⟨p, r, rfl, rfl, htol⟩⟩

/-- Witness for C4: a locked detector with period 1/2, reference 0, clicks
`[0, 1/2]` and indices `[0, 1]` satisfies the invariant, and the theorem
applies to it at onset time 1. -/
theorem locked_invariant_preserved_witness :
    ((MetronomeDetector.mk [] true (some 120) (some (1/2)) (some 0)
        [0, 1/2] [0, 1] 0 0).locked = true ∧
     (MetronomeDetector.mk [] true (some 120) (some (1/2)) (some 0)
        [0, 1/2] [0, 1] 0 0).invariantHolds = true) ∧
    (((MetronomeDetector.mk [] true (some 120) (some (1/2)) (some 0)
        [0, 1/2] [0, 1] 0 0).add_onset 1).1.invariantHolds = true ∧
     (MetronomeDetector.mk [] true (some 120) (some (1/2)) (some 0)
        [0, 1/2] [0, 1] 0 0).refit.invariantHolds = true ∧
     ((MetronomeDetector.mk [] true (some 120) (some (1/2)) (some 0)
        [0, 1/2] [0, 1] 0 0).track_onset 1).1.invariantHolds = true ∧
     (((MetronomeDetector.mk [] true (some 120) (some (1/2)) (some 0)
        [0, 1/2] [0, 1] 0 0).track_onset 1).2 = true →
       ∃ p r, (MetronomeDetector.mk [] true (some 120) (some (1/2)) (some 0)
          [0, 1/2] [0, 1] 0 0).period = some p ∧
         (MetronomeDetector.mk [] true (some 120) (some (1/2)) (some 0)
          [0, 1/2] [0, 1] 0 0).reference_time = some r ∧
         |1 - (r + (pyRound ((1 - r) / p) : ℚ) * p)| * 1000 ≤ min (p * 250) 50)) :=
  ⟨⟨rfl, by norm_num [MetronomeDetector.invariantHolds, isSortedAsc]⟩,
   locked_invariant_preserved _ 1 rfl
     (by norm_num [MetronomeDetector.invariantHolds, isSortedAsc])⟩

theorem recordClick_snd (s : MetronomeDetector) (t : ℚ) (k : ℤ) :
    (s.recordClick t k).2 = true := by
  simp only [MetronomeDetector.recordClick]
  split_ifs <;> rfl

/-- C5: for a locked detector with period `p` and reference `r` whose refit
counter has not yet reached the refit interval, `track_onset t` returns
`false` and leaves the state unchanged exactly when the timing error exceeds
`min(p·250, 50)` ms or the onset is less than half a period after the last
recorded click; otherwise it returns `true`, appends `t` to `click_times` and
`round((t−r)/p)` to `click_indices`, increments the refit counter, and refits
(resetting the counter to 0) exactly when the counter reaches 4. -/
theorem track_onset_spec (s : MetronomeDetector) (t p r : ℚ)
    (hl : s.locked = true) (hp : s.period = some p) (hr : s.reference_time = some r)
    (hcnt : s.clicks_since_refit < 4) :
    (((s.track_onset t).2 = false) ↔
      (min (p * 250) 50 < |((t - r) / p) - (pyRound ((t - r) / p) : ℚ)| * p * 1000 ∨
       ∃ last, s.click_times.getLast? = some last ∧ t - last < p * (1/2))) ∧
    ((s.track_onset t).2 = false → (s.track_onset t).1 = s) ∧
    ((s.track_onset t).2 = true →
      (s.track_onset t).1 =
        (if s.clicks_since_refit = 3 then
          MetronomeDetector.refit
            { s with click_times := s.click_times ++ [t],
                     click_indices := s.click_indices ++ [pyRound ((t - r) / p)],
                     clicks_since_refit := 0 }
        else
          { s with click_times := s.click_times ++ [t],
                   click_indices := s.click_indices ++ [pyRound ((t - r) / p)],
                   clicks_since_refit := s.clicks_since_refit + 1 })) := by
  simp only [MetronomeDetector.track_onset, hl, hp, hr]
  by_cases herr : min (p * 250) 50 <
      |((t - r) / p) - (pyRound ((t - r) / p) : ℚ)| * p * 1000
  · rw [if_pos herr]
    exact ⟨by simp [herr], fun _ => rfl, fun h => absurd h (by simp)⟩
  · rw [if_neg herr]
    rcases hlast : s.click_times.getLast? with _ | last
    · refine ⟨?_, ?_, ?_⟩
      · constructor
        · intro h; simp [recordClick_snd] at h
        · rintro (h | ⟨last, heq, _⟩)
          · exact absurd h herr
          · cases heq
      · intro h; simp [recordClick_snd] at h
      · intro _
        show (s.recordClick t (pyRound ((t - r) / p))).1 = _
        simp only [MetronomeDetector.recordClick]
        by_cases h3 : s.clicks_since_refit = 3
        · rw [if_pos (show (4:ℤ) ≤ s.clicks_since_refit + 1 by omega), if_pos h3,
            hl, hp, hr]
        · rw [if_neg (show ¬((4:ℤ) ≤ s.clicks_since_refit + 1) by omega), if_neg h3,
            hl, hp, hr]
    · by_cases hgap : t - last < p * (1/2)
      · refine ⟨?_, ?_, ?_⟩
        · simp only [hgap, if_true]
          constructor
          · intro _; exact Or.inr ⟨last, rfl, hgap⟩
          · intro _; trivial
        · intro _
          simp only [hgap, if_true]
        · intro h
          simp only [hgap, if_true] at h
          exact Bool.noConfusion h
      · refine ⟨?_, ?_, ?_⟩
        · simp only [hgap, if_false]
          constructor
          · intro h
            rw [recordClick_snd] at h
            exact Bool.noConfusion h
          · rintro (h | ⟨last', heq, hlt⟩)
            · exact absurd h herr
            · injection heq with heq'
              exact absurd (heq' ▸ hlt) hgap
        · intro h
          simp only [hgap, if_false, recordClick_snd] at h
          exact Bool.noConfusion h
        · intro _
          simp only [hgap, if_false]
          simp only [MetronomeDetector.recordClick]
          by_cases h3 : s.clicks_since_refit = 3
          · rw [if_pos (show (4:ℤ) ≤ s.clicks_since_refit + 1 by omega), if_pos h3,
              hl, hp, hr]
          · rw [if_neg (show ¬((4:ℤ) ≤ s.clicks_since_refit + 1) by omega), if_neg h3,
              hl, hp, hr]

/-- Witness for C5: a locked detector (period 1/2, reference 0, clicks
`[0, 1/2]`, indices `[0, 1]`, counter 0) on onset time 1, which is accepted. -/
theorem track_onset_spec_witness :
    ((MetronomeDetector.mk [] true (some 120) (some (1/2)) (some 0)
        [0, 1/2] [0, 1] 0 0).locked = true ∧
     (MetronomeDetector.mk [] true (some 120) (some (1/2)) (some 0)
        [0, 1/2] [0, 1] 0 0).period = some (1/2) ∧
     (MetronomeDetector.mk [] true (some 120) (some (1/2)) (some 0)
        [0, 1/2] [0, 1] 0 0).reference_time = some 0 ∧
     (MetronomeDetector.mk [] true (some 120) (some (1/2)) (some 0)
        [0, 1/2] [0, 1] 0 0).clicks_since_refit < 4) ∧
    (((MetronomeDetector.mk [] true (some 120) (some (1/2)) (some 0)
        [0, 1/2] [0, 1] 0 0).track_onset 1).2 = false ↔
      (min ((1:ℚ)/2 * 250) 50 <
          |((1 - 0) / (1/2)) - (pyRound ((1 - 0) / ((1:ℚ)/2)) : ℚ)| * (1/2) * 1000 ∨
       ∃ last, (MetronomeDetector.mk [] true (some 120) (some (1/2)) (some 0)
          [0, 1/2] [0, 1] 0 0).click_times.getLast? = some last ∧
         1 - last < (1:ℚ)/2 * (1/2))) :=
  ⟨⟨rfl, rfl, rfl, by norm_num⟩,
   (track_onset_spec (MetronomeDetector.mk [] true (some 120) (some (1/2)) (some 0)
      [0, 1/2] [0, 1] 0 0) 1 (1/2) 0 rfl rfl rfl (by norm_num)).1⟩

/-- C10: if a locked detector with refit counter 3 accepts onset `t` (within
tolerance, far enough from the last click) and the triggered refit is
accepted (fitted period within `[1/4, 3/2]`), then popping the click via the
pipeline's spectral-override undo restores `click_times` and `click_indices`
but not the estimate: `period`, `reference_time` and `bpm` keep the values
fitted with the popped click included, and the resulting state differs from
the state before `track_onset` was called. -/
theorem undo_does_not_rollback_refit (s : MetronomeDetector) (t p r : ℚ)
    (hl : s.locked = true) (hp : s.period = some p) (hr : s.reference_time = some r)
    (hcnt : s.clicks_since_refit = 3)
    (herr : ¬(min (p * 250) 50 <
        |((t - r) / p) - (pyRound ((t - r) / p) : ℚ)| * p * 1000))
    (hne : s.click_times ≠ [])
    (hgap : ∀ last, s.click_times.getLast? = some last → ¬(t - last < p * (1/2)))
    (hfit1 : 1/4 ≤ (lstsqFit (s.click_indices ++ [pyRound ((t - r) / p)])
        (s.click_times ++ [t])).1)
    (hfit2 : (lstsqFit (s.click_indices ++ [pyRound ((t - r) / p)])
        (s.click_times ++ [t])).1 ≤ 3/2) :
    ((s.track_onset t).1.undoClick.click_times = s.click_times ∧
     (s.track_onset t).1.undoClick.click_indices = s.click_indices) ∧
    ((s.track_onset t).1.undoClick.period =
      some (lstsqFit (s.click_indices ++ [pyRound ((t - r) / p)])
        (s.click_times ++ [t])).1 ∧
     (s.track_onset t).1.undoClick.reference_time =
      some (lstsqFit (s.click_indices ++ [pyRound ((t - r) / p)])
        (s.click_times ++ [t])).2 ∧
     (s.track_onset t).1.undoClick.bpm =
      some (60 / (lstsqFit (s.click_indices ++ [pyRound ((t - r) / p)])
        (s.click_times ++ [t])).1)) ∧
    (s.track_onset t).1.undoClick ≠ s := by
  have hs1 : (s.track_onset t).1 =
      MetronomeDetector.refit
        { s with click_times := s.click_times ++ [t],
                 click_indices := s.click_indices ++ [pyRound ((t - r) / p)],
                 clicks_since_refit := 0 } := by
    simp only [MetronomeDetector.track_onset, hl, hp, hr, herr, if_false]
    rcases hlast : s.click_times.getLast? with _ | last
    · exact absurd (List.getLast?_eq_none_iff.mp hlast) hne
    · simp only [hgap last hlast, if_false]
      simp only [MetronomeDetector.recordClick]
      rw [if_pos (show (4:ℤ) ≤ s.clicks_since_refit + 1 by omega), hl, hp, hr]
  have hlen : 2 ≤ (s.click_times ++ [t]).length := by
    have : 0 < s.click_times.length := List.length_pos.mpr hne
    simp [List.length_append]
    omega
  have hs2 : (s.track_onset t).1 =
      { s with click_times := s.click_times ++ [t],
               click_indices := s.click_indices ++ [pyRound ((t - r) / p)],
               clicks_since_refit := 0,
               period := some (lstsqFit (s.click_indices ++ [pyRound ((t - r) / p)])
                 (s.click_times ++ [t])).1,
               reference_time := some (lstsqFit (s.click_indices ++ [pyRound ((t - r) / p)])
                 (s.click_times ++ [t])).2,
               bpm := some (60 / (lstsqFit (s.click_indices ++ [pyRound ((t - r) / p)])
                 (s.click_times ++ [t])).1) } := by
    rw [hs1]
    exact refit_eq_of_accept _ hlen hfit1 hfit2
  rw [hs2]
  refine ⟨⟨?_, ?_⟩, ⟨rfl, rfl, rfl⟩, ?_⟩
  · simp [MetronomeDetector.undoClick]
  · simp [MetronomeDetector.undoClick]
  · intro heq
    have h0 := congrArg MetronomeDetector.clicks_since_refit heq
    simp only [MetronomeDetector.undoClick] at h0
    rw [hcnt] at h0
    norm_num at h0

/-- Witness for C10: locked detector with period 1/2, reference 0, clicks
`[0, 1/2, 1]`, indices `[0, 1, 2]`, counter 3; onset at `t = 151/100` is
accepted (10 ms error), triggers a refit whose fitted period 503/1000 is in
range and differs from 1/2, and the undo keeps that refit. -/
theorem undo_does_not_rollback_refit_witness :
    ((MetronomeDetector.mk [] true (some 120) (some (1/2)) (some 0)
        [0, 1/2, 1] [0, 1, 2] 3 0).clicks_since_refit = 3 ∧
     ¬(min ((1:ℚ)/2 * 250) 50 <
        |((151/100 - 0) / (1/2)) - (pyRound ((151/100 - 0) / ((1:ℚ)/2)) : ℚ)| *
          (1/2) * 1000) ∧
     (1:ℚ)/4 ≤ (lstsqFit ([0, 1, 2] ++ [pyRound ((151/100 - 0) / ((1:ℚ)/2))])
        ([0, 1/2, 1] ++ [151/100])).1 ∧
     (lstsqFit ([0, 1, 2] ++ [pyRound ((151/100 - 0) / ((1:ℚ)/2))])
        ([0, 1/2, 1] ++ [151/100])).1 ≤ 3/2) ∧
    (((MetronomeDetector.mk [] true (some 120) (some (1/2)) (some 0)
        [0, 1/2, 1] [0, 1, 2] 3 0).track_onset (151/100)).1.undoClick.click_times
      = [0, 1/2, 1] ∧
     ((MetronomeDetector.mk [] true (some 120) (some (1/2)) (some 0)
        [0, 1/2, 1] [0, 1, 2] 3 0).track_onset (151/100)).1.undoClick ≠
      MetronomeDetector.mk [] true (some 120) (some (1/2)) (some 0)
        [0, 1/2, 1] [0, 1, 2] 3 0) := by
  have happ := undo_does_not_rollback_refit
    (MetronomeDetector.mk [] true (some 120) (some (1/2)) (some 0)
      [0, 1/2, 1] [0, 1, 2] 3 0) (151/100) (1/2) 0 rfl rfl rfl rfl
    (by norm_num [pyRound]
        rw [abs_of_pos (show (0:ℚ) < 1/50 by norm_num)]
        norm_num)
    (by simp)
    (by intro last hlast
        simp only [List.getLast?] at hlast
        norm_num at hlast
        rw [← hlast]
        norm_num)
    (by norm_num [lstsqFit, pyRound])
    (by norm_num [lstsqFit, pyRound])
  refine ⟨⟨rfl, (by
      norm_num [pyRound]
      rw [abs_of_pos (show (0:ℚ) < 1/50 by norm_num)]
      norm_num), (by norm_num [lstsqFit, pyRound]),
    (by norm_num [lstsqFit, pyRound])⟩, ?_, happ.2.2⟩
  rw [happ.1.1]

theorem process_chunk_short_aux (st : RealtimeOnsetDetector) (c : List FVal)
    (h : c.length < 512) :
    st.process_chunk c =
      ({ st with total_samples := st.total_samples + c.length }, []) := by
  simp [RealtimeOnsetDetector.process_chunk, frameStarts, h]

theorem sumSq_replicate_some (n : ℕ) (c : ℚ) : ∀ acc : ℚ,
    (List.replicate n (some c)).foldl (fun a x => fAdd a (fMul x x)) (some acc)
      = some (acc + n * (c * c)) := by
  induction n with
  | zero => intro acc; simp
  | succ n ih =>
    intro acc
    rw [List.replicate_succ, List.foldl_cons,
      show fAdd (some acc) (fMul (some c) (some c)) = some (acc + c * c) from rfl, ih]
    congr 1
    push_cast
    ring

theorem sumSq_foldl_none (l : List FVal) :
    l.foldl (fun a x => fAdd a (fMul x x)) none = none := by
  induction l with
  | nil => rfl
  | cons x l ih =>
    rw [List.foldl_cons, show fAdd none (fMul x x) = none from rfl, ih]

theorem sumSq_replicate_none (n : ℕ) (h : n ≠ 0) (acc : FVal) :
    (List.replicate n none).foldl (fun a x => fAdd a (fMul x x)) acc = none := by
  cases n with
  | zero => exact absurd rfl h
  | succ n =>
    rw [List.replicate_succ, List.foldl_cons,
      show fAdd acc (fMul none none) = none from by cases acc <;> rfl,
      sumSq_foldl_none]

theorem ratSqrt_one : ratSqrt 1 = 1 := by
  norm_num [ratSqrt, show intSqrt 1 = 1 from by decide]

theorem ratSqrt_zero : ratSqrt 0 = 0 := by
  norm_num [ratSqrt, show intSqrt 0 = 0 from by decide,
    show intSqrt 1 = 1 from by decide]

theorem rmsOf_ones : rmsOf onesChunk = some 1 := by
  rw [rmsOf, onesChunk, sumSq_replicate_some 512 1 0]
  norm_num [fDiv, fSqrt, ratSqrt_one]

theorem rmsOf_zeros : rmsOf zerosChunk = some 0 := by
  rw [rmsOf, zerosChunk, sumSq_replicate_some 512 0 0]
  norm_num [fDiv, fSqrt, ratSqrt_zero]

theorem rmsOf_nan : rmsOf nanChunk = none := by
  rw [rmsOf, nanChunk, sumSq_replicate_none 512 (by norm_num) (some 0)]
  rfl

theorem frameStarts_512 : frameStarts 512 = [0] := by
  norm_num [frameStarts]
  decide

theorem onesChunk_frame : (onesChunk.drop 0).take 512 = onesChunk := by
  rw [List.drop_zero,
    show (512:ℕ) = onesChunk.length from by rw [onesChunk, List.length_replicate], List.take_length]

theorem zerosChunk_frame : (zerosChunk.drop 0).take 512 = zerosChunk := by
  rw [List.drop_zero,
    show (512:ℕ) = zerosChunk.length from by rw [zerosChunk, List.length_replicate], List.take_length]

theorem nanChunk_frame : (nanChunk.drop 0).take 512 = nanChunk := by
  rw [List.drop_zero,
    show (512:ℕ) = nanChunk.length from by rw [nanChunk, List.length_replicate], List.take_length]

theorem process_ones_from_init :
    RealtimeOnsetDetector.init.process_chunk onesChunk =
      (⟨44100, 1/20, some 0, 512, some (3/10), some (1/100), true, some 1, 1⟩,
       [0]) := by
  have hlen : onesChunk.length = 512 := by rw [onesChunk, List.length_replicate]
  simp only [RealtimeOnsetDetector.process_chunk, hlen, frameStarts_512,
    List.foldl_cons, List.foldl_nil, onesChunk_frame]
  simp only [stepFrame, rmsOf_ones, RealtimeOnsetDetector.init]
  norm_num [fAdd, fMul, fMax, fGt, fLt]

theorem process_zeros_from_init :
    RealtimeOnsetDetector.init.process_chunk zerosChunk =
      (⟨44100, 1/20, none, 512, some 0, some 0, false, some 0, 1⟩, []) := by
  have hlen : zerosChunk.length = 512 := by rw [zerosChunk, List.length_replicate]
  simp only [RealtimeOnsetDetector.process_chunk, hlen, frameStarts_512,
    List.foldl_cons, List.foldl_nil, zerosChunk_frame]
  simp only [stepFrame, rmsOf_zeros, RealtimeOnsetDetector.init]
  norm_num [fAdd, fMul, fMax, fGt, fLt]

theorem process_nan_from_init :
    RealtimeOnsetDetector.init.process_chunk nanChunk =
      (⟨44100, 1/20, none, 512, none, none, false, some 0, 1⟩, []) := by
  have hlen : nanChunk.length = 512 := by rw [nanChunk, List.length_replicate]
  simp only [RealtimeOnsetDetector.process_chunk, hlen, frameStarts_512,
    List.foldl_cons, List.foldl_nil, nanChunk_frame]
  simp only [stepFrame, rmsOf_nan, RealtimeOnsetDetector.init]
  norm_num [fAdd, fMul, fMax, fGt, fLt]

theorem process_ones_from_nan_state :
    (RealtimeOnsetDetector.mk 44100 (1/20) none 512 none none false (some 0)
        1).process_chunk onesChunk =
      (⟨44100, 1/20, none, 1024, none, none, false, some 1, 2⟩, []) := by
  have hlen : onesChunk.length = 512 := by rw [onesChunk, List.length_replicate]
  simp only [RealtimeOnsetDetector.process_chunk, hlen, frameStarts_512,
    List.foldl_cons, List.foldl_nil, onesChunk_frame]
  simp only [stepFrame, rmsOf_ones]
  norm_num [fAdd, fMul, fMax, fGt, fLt]

theorem process_ones_from_zeros_state :
    (RealtimeOnsetDetector.mk 44100 (1/20) none 512 (some 0) (some 0) false
        (some 0) 1).process_chunk onesChunk =
      (⟨44100, 1/20, some (512/44100), 1024, some (3/10), some (1/100), true,
        some 1, 2⟩, [512/44100]) := by
  have hlen : onesChunk.length = 512 := by rw [onesChunk, List.length_replicate]
  simp only [RealtimeOnsetDetector.process_chunk, hlen, frameStarts_512,
    List.foldl_cons, List.foldl_nil, onesChunk_frame]
  simp only [stepFrame, rmsOf_ones]
  norm_num [fAdd, fMul, fMax, fGt, fLt]

/-- C1 (amended): the 512/256 frame slide restarts at each chunk boundary —
`process_chunk` only visits frames lying wholly inside the chunk — while the
sample counter (the time base) does continue across chunks.  In particular a
chunk shorter than one frame contributes no frames at all: the detector state
is unchanged except for `total_samples`, and no onsets are emitted, so
splitting a stream into chunks does not in general yield the onsets of
single-chunk processing. -/
theorem process_chunk_frames_restart_per_chunk (st : RealtimeOnsetDetector)
    (c : List FVal) (h : c.length < 512) :
    st.process_chunk c =
      ({ st with total_samples := st.total_samples + c.length }, []) :=
  process_chunk_short_aux st c h

/-- Witness for C1's amended statement: a 256-sample chunk of ones from the
initial state. -/
theorem process_chunk_frames_restart_per_chunk_witness :
    halfOnesChunk.length < 512 ∧
    RealtimeOnsetDetector.init.process_chunk halfOnesChunk =
      ({ RealtimeOnsetDetector.init with
          total_samples := RealtimeOnsetDetector.init.total_samples +
            halfOnesChunk.length }, []) :=
  ⟨by rw [halfOnesChunk, List.length_replicate]; norm_num,
   process_chunk_frames_restart_per_chunk RealtimeOnsetDetector.init halfOnesChunk
     (by rw [halfOnesChunk, List.length_replicate]; norm_num)⟩

/-- Counterexample to C1 as stated: 512 samples of 1.0 fed as one chunk
produce an onset at t = 0, but fed as two 256-sample chunks produce no
onsets at all (each half is shorter than one frame, and the frame spanning
the boundary is never examined). -/
theorem process_chunk_split_counterexample :
    (processChunks RealtimeOnsetDetector.init [onesChunk]).2 = [0] ∧
    (processChunks RealtimeOnsetDetector.init [halfOnesChunk, halfOnesChunk]).2
      = [] ∧
    (processChunks RealtimeOnsetDetector.init [onesChunk]).2 ≠
      (processChunks RealtimeOnsetDetector.init
        [halfOnesChunk, halfOnesChunk]).2 := by
  have hhalf : halfOnesChunk.length = 256 := by rw [halfOnesChunk, List.length_replicate]
  have h1 : (processChunks RealtimeOnsetDetector.init [onesChunk]).2 = [0] := by
    simp [processChunks, process_ones_from_init]
  have h2 : (processChunks RealtimeOnsetDetector.init
      [halfOnesChunk, halfOnesChunk]).2 = [] := by
    simp [processChunks, process_chunk_short_aux _ _ (by rw [hhalf]; norm_num :
      halfOnesChunk.length < 512)]
  exact ⟨h1, h2, by rw [h1, h2]; simp⟩

/-- C3 exhibit (code bug): a chunk of NaN samples permanently poisons the
detector.  After `[nanChunk, onesChunk]` the detector has emitted no onsets
and `smoothed_rms` is NaN, whereas the same stream with the NaNs replaced by
zeros emits an onset at t = 512/44100 s — so non-finite samples are *not*
treated as zero, the state does not stay finite, and detection on later
chunks is affected. -/
theorem nan_poisons_detector :
    (processChunks RealtimeOnsetDetector.init [nanChunk, onesChunk]).2 = [] ∧
    (processChunks RealtimeOnsetDetector.init
      [nanChunk, onesChunk]).1.smoothed_rms = none ∧
    (processChunks RealtimeOnsetDetector.init [zerosChunk, onesChunk]).2
      = [512/44100] := by
  have hn : processChunks RealtimeOnsetDetector.init [nanChunk, onesChunk] =
      (⟨44100, 1/20, none, 1024, none, none, false, some 1, 2⟩, []) := by
    simp only [processChunks, List.foldl_cons, List.foldl_nil,
      process_nan_from_init, process_ones_from_nan_state, List.nil_append,
      List.append_nil]
  have hz : processChunks RealtimeOnsetDetector.init [zerosChunk, onesChunk] =
      (⟨44100, 1/20, some (512/44100), 1024, some (3/10), some (1/100), true,
        some 1, 2⟩, [512/44100]) := by
    simp only [processChunks, List.foldl_cons, List.foldl_nil,
      process_zeros_from_init, process_ones_from_zeros_state, List.nil_append,
      List.append_nil]
  rw [hn, hz]
  exact ⟨rfl, rfl, rfl⟩

theorem cosineSimilarity_zero_of_right (a b : List ℚ)
    (h : normSq b < 1/10^20) : cosineSimilarity a b = 0 := by
  rw [cosineSimilarity, if_pos (Or.inr h)]

/-- C7 (amended): `classify_onset` returns "guitar" whenever the window
overruns the buffer or the onset sample is negative, whenever feature
extraction yields nothing (silent window), and whenever either profile is
missing.  When both profile MFCC norms are below 1e-10, however, both cosine
similarities are 0 and the energy-decay term alone decides: the result is
"click" — not "guitar" — exactly when the onset's decay is strictly closer
to the metronome profile's decay than to the guitar profile's. -/
theorem classify_onset_guitar_defaults (mfccOf : List ℚ → List ℚ)
    (centroidOf : List ℚ → ℚ) (audio_buffer : List ℚ) (onset_sample : ℤ)
    (sample_rate : ℕ) (cal : Calibration) :
    (((audio_buffer.length : ℤ) < onset_sample + 2048 ∨ onset_sample < 0) →
      classify_onset mfccOf centroidOf audio_buffer onset_sample sample_rate cal
        = "guitar") ∧
    (extractWindowFeatures mfccOf centroidOf
        ((audio_buffer.drop onset_sample.toNat).take 2048) = none →
      classify_onset mfccOf centroidOf audio_buffer onset_sample sample_rate cal
        = "guitar") ∧
    ((cal.metronome = none ∨ cal.guitar = none) →
      classify_onset mfccOf centroidOf audio_buffer onset_sample sample_rate cal
        = "guitar") ∧
    (∀ f mp gp,
      ¬((audio_buffer.length : ℤ) < onset_sample + 2048 ∨ onset_sample < 0) →
      extractWindowFeatures mfccOf centroidOf
        ((audio_buffer.drop onset_sample.toNat).take 2048) = some f →
      cal.metronome = some mp → cal.guitar = some gp →
      normSq mp.mfcc_mean < 1/10^20 → normSq gp.mfcc_mean < 1/10^20 →
      classify_onset mfccOf centroidOf audio_buffer onset_sample sample_rate cal
        = if |f.energy_decay - mp.energy_decay.getD (1/2)| <
              |f.energy_decay - gp.energy_decay.getD (1/2)| then "click"
          else "guitar") := by
  refine ⟨fun h => ?_, fun h => ?_, fun h => ?_, fun f mp gp hb hext hmet hgtr h1 h2 => ?_⟩
  · rw [classify_onset, if_pos h]
  · rw [classify_onset]
    split_ifs with hb
    · rfl
    · simp only [h]
  · rw [classify_onset]
    split_ifs with hb
    · rfl
    · cases hext : extractWindowFeatures mfccOf centroidOf
          ((audio_buffer.drop onset_sample.toNat).take 2048) with
      | none => simp only [hext]
      | some f =>
        simp only [hext]
        rcases h with h | h
        · rcases hg : cal.guitar with _ | gp <;> simp [h, hg]
        · rcases hm : cal.metronome with _ | mp <;> simp [h, hm]
  · rw [classify_onset, if_neg hb]
    simp only [hext, hmet, hgtr]
    rw [classifyScores,
      cosineSimilarity_zero_of_right f.mfcc mp.mfcc_mean h1,
      cosineSimilarity_zero_of_right f.mfcc gp.mfcc_mean h2]
    refine if_congr ?_ rfl rfl
    constructor
    · intro h; nlinarith
    · intro h; nlinarith

/-- Witness for C7's amended statement: an empty buffer with a positive onset
index fails the bounds check, so classification defaults to "guitar" for any
calibration. -/
theorem classify_onset_guitar_defaults_witness :
    ((([] : List ℚ).length : ℤ) < 5 + 2048 ∨ (5:ℤ) < 0) ∧
    classify_onset mfccStub centroidStub [] 5 44100 (Calibration.mk none none)
      = "guitar" :=
  ⟨by norm_num,
   (classify_onset_guitar_defaults mfccStub centroidStub [] 5 44100
     (Calibration.mk none none)).1 (by norm_num)⟩

theorem foldl_max_replicate (n : ℕ) (c : ℚ) (hn : n ≠ 0) :
    ∀ acc : ℚ, acc ≤ c → (List.replicate n c).foldl max acc = c := by
  induction n with
  | zero => exact absurd rfl hn
  | succ n ih =>
    intro acc hacc
    rw [List.replicate_succ, List.foldl_cons, max_eq_right hacc]
    cases n with
    | zero => rfl
    | succ m => exact ih (by simp) c le_rfl

theorem normSq_replicate (k : ℕ) (c : ℚ) :
    normSq (List.replicate k c) = k * (c * c) := by
  induction k with
  | zero => simp [normSq]
  | succ k ih =>
    rw [List.replicate_succ]
    simp only [normSq, List.map_cons, List.sum_cons] at ih ⊢
    rw [ih]
    push_cast
    ring

/-- Counterexample to C7 as stated: with both profile MFCC norms below 1e-10
(here both are 0), `classify_onset` does **not** default to "guitar" — both
cosine similarities are 0 by the small-norm guard (independently of the
MFCCs librosa would extract from the window), and the energy-decay distance
term decides in favour of "click" because the window's decay ratio (1) equals
the metronome profile's decay and is far from the guitar profile's. -/
theorem classify_onset_tiny_norms_counterexample :
    normSq (List.replicate 13 (0:ℚ)) < 1/10^20 ∧
    classify_onset mfccStub centroidStub onesBuffer 0 44100 zeroNormCalibration
      = "click" := by
  constructor
  · rw [normSq_replicate]
    norm_num
  · have hlen : onesBuffer.length = 2048 := by rw [onesBuffer, List.length_replicate]
    have hwin : (onesBuffer.drop (0:ℤ).toNat).take 2048 = onesBuffer := by
      rw [show (0:ℤ).toNat = 0 from rfl, List.drop_zero, ← hlen, List.take_length]
    have hmax : maxAbs onesBuffer = 1 := by
      rw [maxAbs, onesBuffer, List.map_replicate, abs_one]
      exact foldl_max_replicate 2048 1 (by norm_num) 0 (by norm_num)
    have htake : onesBuffer.take (onesBuffer.length / 2) = List.replicate 1024 (1:ℚ) := by
      rw [hlen, onesBuffer, List.take_replicate]
      norm_num
    have hdrop : onesBuffer.drop (onesBuffer.length / 2) = List.replicate 1024 (1:ℚ) := by
      rw [hlen, onesBuffer, List.drop_replicate]
    have hext : extractWindowFeatures mfccStub centroidStub onesBuffer =
        some ⟨List.replicate 13 0, 0, 1⟩ := by
      rw [extractWindowFeatures, if_neg (by rw [hmax]; norm_num), htake, hdrop,
        normSq_replicate]
      norm_num [mfccStub, centroidStub]
    rw [classify_onset, if_neg (by rw [hlen]; norm_num), hwin, hext]
    show classifyScores (List.replicate 13 0) 1
      (Profile.mk (List.replicate 13 0) (some 1))
      (Profile.mk (List.replicate 13 0) (some 5)) = "click"
    rw [classifyScores,
      cosineSimilarity_zero_of_right (List.replicate 13 0) (List.replicate 13 0)
        (by rw [normSq_replicate]; norm_num)]
    rw [if_pos]
    show (0:ℚ) - 3/10 * |1 - (5:ℚ)| < 0 - 3/10 * |1 - (1:ℚ)|
    rw [show |(1:ℚ) - 5| = 4 from by rw [show (1:ℚ) - 5 = -4 from by norm_num,
      abs_neg, abs_of_nonneg (by norm_num : (0:ℚ) ≤ 4)]]
    rw [show |(1:ℚ) - 1| = 0 from by norm_num]
    norm_num

end MLRhythm
